import Mathlib

/-!
Verification development for the Lazarus Core boot-time trust engine
(src/lz_core/lz_core.c and companions).  The C functions are shallowly
embedded as executable Lean definitions; machine integers are Nat with
explicit reduction modulo 2^32 (or 256) where the C width matters, and
the external crypto facade (SHA-256, HMAC, ECDSA, ECC key derivation;
declared out of scope by the specification) is passed in as explicit
function parameters.
-/

namespace Lazarus

/-- Byte buffers are lists of naturals (each morally < 256). -/
abbrev Bytes := List Nat

/-- Wrap-around modulus of the 32-bit unsigned arithmetic used by the code. -/
def UINT32_MOD : Nat := 2 ^ 32

/-- Modelled from the spec: the numeric value of LZ_MAGIC is defined in
lz_common.h, which is not under src/; every use in the code only compares a
field against it, so any fixed value is faithful. -/
def LZ_MAGIC : Nat := 0x4C5A4D47

/-- SHA256_DIGEST_LENGTH from the crypto facade. -/
def SHA256_DIGEST_LENGTH : Nat := 32

/-- LEN_NONCE: staging nonces are 16 bytes (spec section 3). -/
def LEN_NONCE : Nat := 16

/-- LEN_UUID_V4_BIN: binary UUIDv4 length (spec section 3). -/
def LEN_UUID_V4_BIN : Nat := 16

/-- Modelled from the spec: MAX_PUB_ECP_PEM_BYTES is defined in lz_ecc.h,
not under src/; its exact value is a platform constant that none of the
claims depend on. -/
def MAX_PUB_ECP_PEM_BYTES : Nat := 279

/-- Result kind of the Lazarus functions.  Modelled from the spec: the
numeric enum values live in lz_common.h, which is not under src/; the
code only compares results against LZ_SUCCESS. -/
inductive LZ_RESULT where
  | LZ_SUCCESS
  | LZ_ERROR
  | LZ_NOT_FOUND
deriving DecidableEq, Repr

open LZ_RESULT

/-- The closed enum of staging record types (spec section 6). -/
inductive HdrType where
  | BOOT_TICKET
  | DEFERRAL_TICKET
  | LZ_CORE_UPDATE
  | LZ_UDOWNLOADER_UPDATE
  | LZ_CPATCHER_UPDATE
  | APP_UPDATE
  | DEVICE_ID_REASSOC_RES
  | CONFIG_UPDATE
deriving DecidableEq, Repr

/-- The three next-stage boot modes of boot_mode_t. -/
inductive BootMode where
  | APP
  | LZ_CPATCHER
  | LZ_UDOWNLOADER
deriving DecidableEq, Repr

/-- Signed content of a staging record header (lz_auth_hdr_t.content). -/
structure AuthHdrContent where
  magic : Nat
  type : HdrType
  payload_size : Nat
  digest : Bytes
  nonce : Bytes
  issue_time : Nat
deriving DecidableEq, Repr

/-- A staging record header: signed content plus the ECDSA signature. -/
structure AuthHdr where
  content : AuthHdrContent
  signature : Bytes
deriving DecidableEq, Repr

/-- One staging-area record: header plus the payload bytes that follow it. -/
structure StagingElem where
  hdr : AuthHdr
  payload : Bytes
deriving DecidableEq, Repr

/-- An ECC keypair as handled by the crypto facade (PEM-convertible). -/
structure ECCKeypair where
  pub : Bytes
  priv : Bytes
deriving DecidableEq, Repr

/-- Embedding of lz_core_verify_staging_elem_hdr_sig (lz_core.c lines
794-821): hash the first payload_size payload bytes, compare against the
digest field, then check the ECDSA signature of the header content under
the management public key.  The sha and ecdsaVerify parameters stand for
the external crypto facade, which the spec declares pure (section 4.1). -/
def lz_core_verify_staging_elem_hdr_sig (sha : Bytes → Bytes)
    (ecdsaVerify : Bytes → AuthHdrContent → Bytes → Bool)
    (management_pub_key : Bytes) (hdr : AuthHdr) (payload : Bytes) : LZ_RESULT :=
  let digest := sha (payload.take hdr.content.payload_size)
  if digest ≠ hdr.content.digest then LZ_ERROR
  else if ecdsaVerify management_pub_key hdr.content hdr.signature then LZ_SUCCESS
  else LZ_ERROR

/-- Embedding of lz_core_verify_staging_elem_hdr (lz_core.c lines 843-882):
magic check, nonzero payload size, nonce comparison, then digest and
signature via lz_core_verify_staging_elem_hdr_sig. -/
def lz_core_verify_staging_elem_hdr (sha : Bytes → Bytes)
    (ecdsaVerify : Bytes → AuthHdrContent → Bytes → Bool)
    (management_pub_key : Bytes) (hdr : AuthHdr) (payload : Bytes)
    (nonce : Bytes) : LZ_RESULT :=
  if hdr.content.magic ≠ LZ_MAGIC then LZ_ERROR
  else if hdr.content.payload_size = 0 then LZ_ERROR
  else if hdr.content.nonce ≠ nonce then LZ_ERROR
  else lz_core_verify_staging_elem_hdr_sig sha ecdsaVerify management_pub_key hdr payload

/-- Record-level view of the staging area: the leading records whose header
magic is LZ_MAGIC.  Iteration over the staging area terminates at the
first header with a different magic (spec section 3). -/
def lz_staging_valid_hdrs (elems : List StagingElem) : List StagingElem :=
  elems.takeWhile (fun e => e.hdr.content.magic == LZ_MAGIC)

/-- Record-level counterpart of lz_get_num_staging_elems: the number of
leading valid-looking headers.  The byte-level cursor walk of the C
function is embedded separately below for the termination claim. -/
def lz_num_staging_elems_view (elems : List StagingElem) : Nat :=
  (lz_staging_valid_hdrs elems).length

/-- Modelled from the spec: lz_get_staging_hdr lives in lz_update.c, which
is not under src/.  Spec section 4.5: find_header walks the valid region and
returns the first header whose type matches and whose nonce equals the
expected nonce. -/
def lz_get_staging_hdr (elems : List StagingElem) (t : HdrType)
    (nonce : Bytes) : Option StagingElem :=
  (lz_staging_valid_hdrs elems).find?
    (fun e => e.hdr.content.type == t && e.hdr.content.nonce == nonce)

/-- Embedding of lz_has_valid_staging_element (lz_core.c lines 965-986):
look up a header of the requested type under the current nonce, then run
the full header verification on it with the payload that follows it. -/
def lz_has_valid_staging_element (sha : Bytes → Bytes)
    (ecdsaVerify : Bytes → AuthHdrContent → Bytes → Bool)
    (management_pub_key : Bytes) (elems : List StagingElem)
    (cur_nonce : Bytes) (hdr_type : HdrType) : LZ_RESULT :=
  match lz_get_staging_hdr elems hdr_type cur_nonce with
  | none => LZ_NOT_FOUND
  | some e =>
      if lz_core_verify_staging_elem_hdr sha ecdsaVerify management_pub_key
          e.hdr e.payload cur_nonce = LZ_SUCCESS
      then LZ_SUCCESS else LZ_ERROR

/-- Modelled from the spec: lz_verified_core_update_pending lives in
lz_update.c, which is not under src/.  Spec sections 4.6 and 4.8: the
selector chooses the Core Patcher when a verified CORE_UPDATE ticket is
present in staging. -/
def lz_verified_core_update_pending (sha : Bytes → Bytes)
    (ecdsaVerify : Bytes → AuthHdrContent → Bytes → Bool)
    (management_pub_key : Bytes) (elems : List StagingElem)
    (cur_nonce : Bytes) : LZ_RESULT :=
  lz_has_valid_staging_element sha ecdsaVerify management_pub_key elems
    cur_nonce HdrType.LZ_CORE_UPDATE

/-- Embedding of the boot-mode selection in lz_core_run (lz_core.c lines
150-171): an empty staging area selects the Update Downloader directly;
otherwise a verified pending core update selects the Core Patcher, a valid
boot ticket selects the App, and anything else the Update Downloader. -/
def lz_core_select_boot_mode (sha : Bytes → Bytes)
    (ecdsaVerify : Bytes → AuthHdrContent → Bytes → Bool)
    (management_pub_key : Bytes) (elems : List StagingElem)
    (cur_nonce : Bytes) : BootMode :=
  if lz_num_staging_elems_view elems = 0 then BootMode.LZ_UDOWNLOADER
  else if lz_verified_core_update_pending sha ecdsaVerify management_pub_key
      elems cur_nonce = LZ_SUCCESS then BootMode.LZ_CPATCHER
  else if lz_has_valid_staging_element sha ecdsaVerify management_pub_key
      elems cur_nonce HdrType.BOOT_TICKET = LZ_SUCCESS then BootMode.APP
  else BootMode.LZ_UDOWNLOADER

/-- Signed content of an image header (lz_img_hdr_t content, spec
section 3). -/
structure ImgHdrContent where
  magic : Nat
  name : Bytes
  version : Nat
  issue_time : Nat
  size : Nat
  hdr_size : Nat
  digest : Bytes
deriving DecidableEq, Repr

/-- An image header: signed content plus the ECDSA signature. -/
structure ImgHdr where
  content : ImgHdrContent
  signature : Bytes
deriving DecidableEq, Repr

/-- Per-image persisted metadata (lz_img_meta_t). -/
structure ImgMeta where
  lastVersion : Nat
  last_issue_time : Nat
  magic : Nat
deriving DecidableEq, Repr

/-- Embedding of lz_core_verify_image (lz_core.c lines 884-963).  Checks,
in order: header magic; the layout identity code = hdr + hdr_size (pointer
arithmetic on the 32-bit target, hence reduction modulo 2^32); the SHA-256
of the first size bytes of the code against the header digest; the ECDSA
signature of the header content under the code-signing key; the stored
metadata magic; and the anti-rollback comparison against the stored
metadata.  The C source returns the integer literal false on the metadata
magic path; lz_common.h with the numeric LZ_RESULT values is not under
src/, so that path is modelled from the spec (section 4.4: any failure is a
verification error).  The result is paired with the digest-out buffer: the
C writes the computed digest through the out pointer only on the success
path and only when the pointer is non-null, so every error path leaves the
buffer unchanged. -/
def lz_core_verify_image (sha : Bytes → Bytes)
    (ecdsaVerifyImg : Bytes → ImgHdrContent → Bytes → Bool)
    (code_auth_pub_key : Bytes) (hdr_addr code_addr : Nat)
    (image_hdr : ImgHdr) (image_code : Bytes) (image_meta : ImgMeta)
    (image_digest_out : Option Bytes) : LZ_RESULT × Option Bytes :=
  if image_hdr.content.magic ≠ LZ_MAGIC then (LZ_ERROR, image_digest_out)
  else if code_addr ≠ (hdr_addr + image_hdr.content.hdr_size) % UINT32_MOD then
    (LZ_ERROR, image_digest_out)
  else
    let digest := sha (image_code.take image_hdr.content.size)
    if digest ≠ image_hdr.content.digest then (LZ_ERROR, image_digest_out)
    else if ¬ ecdsaVerifyImg code_auth_pub_key image_hdr.content image_hdr.signature then
      (LZ_ERROR, image_digest_out)
    else if image_meta.magic ≠ LZ_MAGIC then (LZ_ERROR, image_digest_out)
    else if image_meta.lastVersion > image_hdr.content.version ∨
        image_meta.last_issue_time > image_hdr.content.issue_time then
      (LZ_ERROR, image_digest_out)
    else
      (LZ_SUCCESS, match image_digest_out with
        | none => none
        | some _ => some digest)

/-- The per-mode flash locations selected by lz_core_get_next_layer_addrs
(lz_core.c lines 290-333): header address, code address, header, code and
stored metadata of each of the three bootable stages. -/
structure NextLayerEnv where
  hdr_addr : BootMode → Nat
  code_addr : BootMode → Nat
  image_hdr : BootMode → ImgHdr
  image_code : BootMode → Bytes
  image_meta : BootMode → ImgMeta

/-- Embedding of lz_core_verify_next_layer (lz_core.c lines 337-353):
resolve the addresses for the boot mode and run lz_core_verify_image on
them.  lz_core_get_next_layer_addrs succeeds for all three modes of
boot_mode_t, so the address-resolution error path is unreachable here. -/
def lz_core_verify_next_layer (sha : Bytes → Bytes)
    (ecdsaVerifyImg : Bytes → ImgHdrContent → Bytes → Bool)
    (code_auth_pub_key : Bytes) (env : NextLayerEnv) (mode : BootMode)
    (digest_out : Option Bytes) : LZ_RESULT × Option Bytes :=
  lz_core_verify_image sha ecdsaVerifyImg code_auth_pub_key
    (env.hdr_addr mode) (env.code_addr mode) (env.image_hdr mode)
    (env.image_code mode) (env.image_meta mode) digest_out

/-- Outcome of the post-selection verification step of lz_core_run: either
hand off to a boot mode with the firmware_update_necessary flag, or invoke
the error handler (device bricked, no handoff). -/
inductive RunOutcome where
  | handoff (mode : BootMode) (firmware_update_necessary : Bool)
  | brick
deriving DecidableEq, Repr

/-- Embedding of the verification override in lz_core_run (lz_core.c lines
186-199): on a failed next-layer verification the App falls through to the
Update Downloader with firmware_update_necessary raised, while a failed
Core Patcher or Update Downloader calls lz_error_handler; on success the
selected mode is kept and the flag stays false. -/
def lz_core_after_verify (mode : BootMode) (vres : LZ_RESULT) : RunOutcome :=
  if vres ≠ LZ_SUCCESS then
    if mode = BootMode.APP then RunOutcome.handoff BootMode.LZ_UDOWNLOADER true
    else RunOutcome.brick
  else RunOutcome.handoff mode false

/-- Modelled from the spec (section 3): the boot parameters handed to Core
by DICEpp (lz_core_boot_params_t info; the struct lives in lz_common.h,
not under src/). -/
structure CoreBootParamsInfo where
  magic : Nat
  initial_boot : Bool
  cdi_prime : Bytes
  static_symm : Bytes
  dev_uuid : Bytes
  core_auth : Bytes
  cur_nonce : Bytes
  next_nonce : Bytes
deriving DecidableEq, Repr

/-- The boot-parameter block handed to the next stage
(lz_img_boot_params_info_t). -/
structure ImgBootParamsInfo where
  magic : Nat
  alias_id_keypair_pub : Bytes
  alias_id_keypair_priv : Bytes
  dev_uuid : Bytes
  next_nonce : Bytes
  cur_nonce : Bytes
  dev_auth : Bytes
  dev_reassociation_necessary : Bool
  firmware_update_necessary : Bool
  nw_data : Bytes
deriving DecidableEq, Repr

/-- The all-zero initialisation of the handoff block, matching the C
aggregate initialiser with value zero: fixed-size byte fields are all-zero
bytes, flags are false. -/
def ImgBootParamsInfo.zeroed : ImgBootParamsInfo where
  magic := 0
  alias_id_keypair_pub := []
  alias_id_keypair_priv := []
  dev_uuid := List.replicate LEN_UUID_V4_BIN 0
  next_nonce := List.replicate LEN_NONCE 0
  cur_nonce := List.replicate LEN_NONCE 0
  dev_auth := List.replicate SHA256_DIGEST_LENGTH 0
  dev_reassociation_necessary := false
  firmware_update_necessary := false
  nw_data := []

/-- Embedding of lz_core_derive_dev_auth (lz_core.c lines 390-417):
HMAC-SHA256 with core_auth as the key over the DeviceID public key PEM
(zero-padded to MAX_PUB_ECP_PEM_BYTES) concatenated with dev_uuid.  The
hmac and pubPem parameters stand for the external crypto facade. -/
def lz_core_derive_dev_auth (hmac : Bytes → Bytes → Bytes)
    (pubPem : ECCKeypair → Bytes) (bp : CoreBootParamsInfo)
    (lz_dev_id : ECCKeypair) : Bytes :=
  let pem := pubPem lz_dev_id
  hmac bp.core_auth
    ((pem ++ List.replicate (MAX_PUB_ECP_PEM_BYTES - pem.length) 0) ++ bp.dev_uuid)

/-- Embedding of lz_core_provide_params_ram (lz_core.c lines 548-621): the
next-layer parameter block is built in a zeroed local copy; the AliasID
keypair PEMs always go in; dev_uuid and next_nonce go to the App and the
Update Downloader; dev_uuid, cur_nonce, dev_auth and the
dev_reassociation_necessary / firmware_update_necessary flags go to the
Update Downloader and the Core Patcher; network credentials go to the
Update Downloader when their flash magic is set; finally the magic value is
set. -/
def lz_core_provide_params_ram (hmac : Bytes → Bytes → Bytes)
    (pubPem privPem : ECCKeypair → Bytes) (bp : CoreBootParamsInfo)
    (nw_info_magic : Nat) (nw_info : Bytes) (boot_mode : BootMode)
    (lz_core_updated fw_update_nec : Bool)
    (lz_alias_id_keypair lz_dev_id_keypair : ECCKeypair) : ImgBootParamsInfo :=
  let p0 := { ImgBootParamsInfo.zeroed with
              alias_id_keypair_pub := pubPem lz_alias_id_keypair
              alias_id_keypair_priv := privPem lz_alias_id_keypair }
  let p1 := if boot_mode = BootMode.LZ_UDOWNLOADER ∨ boot_mode = BootMode.APP then
              { p0 with dev_uuid := bp.dev_uuid, next_nonce := bp.next_nonce }
            else p0
  let p2 := if boot_mode = BootMode.LZ_UDOWNLOADER ∨ boot_mode = BootMode.LZ_CPATCHER then
              { p1 with dev_uuid := bp.dev_uuid
                        cur_nonce := bp.cur_nonce
                        dev_auth := lz_core_derive_dev_auth hmac pubPem bp lz_dev_id_keypair
                        dev_reassociation_necessary := lz_core_updated
                        firmware_update_necessary := fw_update_nec }
            else p1
  let p3 := if boot_mode = BootMode.LZ_UDOWNLOADER ∧ nw_info_magic = LZ_MAGIC then
              { p2 with nw_data := nw_info }
            else p2
  { p3 with magic := LZ_MAGIC }

/-- sizeof(uint8_t pointer) on the 32-bit Cortex-M33 target. -/
def SIZEOF_UINT8_PTR : Nat := 4

/-- Embedding of lz_core_derive_alias_id_keypair (lz_core.c lines 420-432).
The source calls lz_derive_ecc_keypair(keypair, digest, sizeof(digest))
where digest is a uint8_t pointer parameter, so sizeof yields the pointer
size 4, not SHA256_DIGEST_LENGTH: only the first four bytes of the digest
seed the derivation (the spec flags exactly this in section 9). -/
def lz_core_derive_alias_id_keypair (derive_ecc : Bytes → ECCKeypair)
    (digest : Bytes) : ECCKeypair :=
  derive_ecc (digest.take SIZEOF_UINT8_PTR)

/-- The ephemeral material live in lz_core_run at the handoff exit
(lz_core.c lines 226-244): the DeviceID private key, the next-layer digest
buffer and the deferral time. -/
structure CoreExitState where
  dev_id_keypair_priv : Bytes
  next_layer_digest : Bytes
  deferral_time : Nat
deriving DecidableEq, Repr

/-- Embedding of the successful handoff exit path of lz_core_run
(lz_core.c lines 236-244): secure_zero_memory clears next_layer_digest and
deferral_time is set to zero, but the DeviceID keypair is left untouched
(the source carries the comment TODO Set new device id key to 0 at that
spot). -/
def lz_core_exit_path (s : CoreExitState) : CoreExitState :=
  { s with next_layer_digest := List.replicate SHA256_DIGEST_LENGTH 0
           deferral_time := 0 }

/-- Embedding of lz_get_staging_elem_content (lz_core.c lines 1021-1032):
look up the header of the requested type under the current nonce and
return the payload bytes that follow it. -/
def lz_get_staging_elem_content (elems : List StagingElem) (cur_nonce : Bytes)
    (elem_type : HdrType) : Option Bytes :=
  match lz_get_staging_hdr elems elem_type cur_nonce with
  | some e => some e.payload
  | none => none

/-- Embedding of lz_get_deferral_time (lz_core.c lines 269-288) as a state
passing function on the caller variable.  The C source passes
(uint8_t pointer-to-pointer) the address of its own deferral_time
parameter to lz_get_staging_elem_content, so the callee overwrites the
local pointer with the payload address and the value behind the caller
variable is never written on any path: the returned Nat is the caller
variable, unchanged. -/
def lz_get_deferral_time (sha : Bytes → Bytes)
    (ecdsaVerify : Bytes → AuthHdrContent → Bytes → Bool)
    (management_pub_key : Bytes) (elems : List StagingElem)
    (cur_nonce : Bytes) (deferral_time_var : Nat) : LZ_RESULT × Nat :=
  match lz_has_valid_staging_element sha ecdsaVerify management_pub_key elems
      cur_nonce HdrType.DEFERRAL_TICKET with
  | LZ_SUCCESS =>
      match lz_get_staging_elem_content elems cur_nonce HdrType.DEFERRAL_TICKET with
      | some _content => (LZ_SUCCESS, deferral_time_var)
      | none => (LZ_NOT_FOUND, deferral_time_var)
  | r => (r, deferral_time_var)

/-- Embedding of the deferral-time determination in lz_core_run (lz_core.c
lines 173-181): call lz_get_deferral_time on the (uninitialised) local
variable and fall back to DEFAULT_WDT_TIMOUT_s on any failure.  The default
value is a config constant not under src/, so it stays a parameter. -/
def lz_core_determine_deferral_time (sha : Bytes → Bytes)
    (ecdsaVerify : Bytes → AuthHdrContent → Bytes → Bool)
    (management_pub_key : Bytes) (elems : List StagingElem)
    (cur_nonce : Bytes) (default_wdt : Nat) (deferral_time_var : Nat) : Nat :=
  let r := lz_get_deferral_time sha ecdsaVerify management_pub_key elems
    cur_nonce deferral_time_var
  if r.1 ≠ LZ_SUCCESS then default_wdt else r.2

/-- Little-endian uint32 read of a 4-byte payload, as the deferral ticket
carries its deferral-time value (spec section 6: integers little-endian). -/
def uint32_le (b : Bytes) : Nat :=
  b.getD 0 0 + 256 * b.getD 1 0 + 65536 * b.getD 2 0 + 16777216 * b.getD 3 0

/-- Byte-level view of the staging area as read by the cursor walk of
lz_get_num_staging_elems: the header fields obtained by casting the bytes
at a given cursor offset to lz_auth_hdr_t.  The claim quantifies over
arbitrary field values at every position, so the view is a pair of
arbitrary functions of the offset; payload_size is the value of a 32-bit
field, reduced modulo 2^32. -/
structure StagingView where
  magic : Nat → Nat
  payload_size : Nat → Nat

/-- Modelled from the spec (section 3): sizeof(lz_auth_hdr_t).  The struct
is defined in lz_common.h, not under src/; the development keeps the size
as an explicit parameter wherever it matters and uses this representative
value (magic, type, payload_size, issue_time as 32-bit words, 32-byte
digest, 16-byte nonce, ECDSA signature buffer) in closed instances. -/
def AUTH_HDR_SIZE : Nat := 160

/-- Embedding of the cursor walk of lz_get_num_staging_elems (lz_core.c
lines 993-1019), made total with a fuel argument: none means the fuel ran
out before the loop exited.  The cursor is a uint32_t stepped by
sizeof(lz_auth_hdr_t) + payload_size, hence the reduction modulo 2^32; the
element counter is a uint8_t, hence the reduction modulo 256. -/
def lz_get_num_staging_elems (view : StagingView)
    (staging_area_size hdr_size : Nat) : Nat → Nat → Nat → Option Nat
  | 0, cursor, num_elements =>
      if cursor < staging_area_size then
        if view.magic cursor = LZ_MAGIC then none else some num_elements
      else some num_elements
  | Nat.succ fuel, cursor, num_elements =>
      if cursor < staging_area_size then
        if view.magic cursor = LZ_MAGIC then
          lz_get_num_staging_elems view staging_area_size hdr_size fuel
            ((cursor + hdr_size + view.payload_size cursor) % UINT32_MOD)
            ((num_elements + 1) % 256)
        else some num_elements
      else some num_elements

/-- Reference count of the leading valid-looking headers, walking the same
view with exact natural-number cursor arithmetic (no 32-bit wrap), with
the same fuel structure as the embedded walk. -/
def lz_count_leading_hdrs (view : StagingView)
    (staging_area_size hdr_size : Nat) : Nat → Nat → Nat
  | 0, _ => 0
  | Nat.succ fuel, cursor =>
      if cursor < staging_area_size then
        if view.magic cursor = LZ_MAGIC then
          Nat.succ (lz_count_leading_hdrs view staging_area_size hdr_size fuel
            (cursor + hdr_size + view.payload_size cursor))
        else 0
      else 0

/-- Concrete stand-in hash: a constant one-byte digest. -/
def shaFive : Bytes → Bytes := fun _ => [5]

/-- Concrete stand-in hash keyed on the first payload byte. -/
def shaHead : Bytes → Bytes := fun payload => List.replicate 32 (payload.headD 0)

/-- Concrete stand-in image-signature check accepting everything. -/
def ecvImgTrue : Bytes → ImgHdrContent → Bytes → Bool := fun _ _ _ => true

/-- Concrete stand-in header-signature check accepting everything. -/
def ecvHdrTrue : Bytes → AuthHdrContent → Bytes → Bool := fun _ _ _ => true

/-- Concrete stand-in header-signature check rejecting everything. -/
def ecvHdrFalse : Bytes → AuthHdrContent → Bytes → Bool := fun _ _ _ => false

/-- Concrete stand-in key derivation keeping its seed visible. -/
def deriveEccSeed : Bytes → ECCKeypair := fun seed => ⟨seed, seed⟩

/-- Concrete accepting image header for the rollback witness. -/
def C2hdr : ImgHdr := ⟨⟨LZ_MAGIC, [], 2, 20, 3, 100, [5]⟩, []⟩

/-- Concrete stored metadata for the rollback witness. -/
def C2meta : ImgMeta := ⟨1, 10, LZ_MAGIC⟩

/-- Concrete next-layer environment whose image headers have a bad magic,
so every mode fails verification. -/
def C4env : NextLayerEnv :=
  ⟨fun _ => 0, fun _ => 0, fun _ => ⟨⟨0, [], 0, 0, 0, 0, []⟩, []⟩,
   fun _ => [], fun _ => ⟨0, 0, 0⟩⟩

/-- First digest of the AliasID truncation pair: 32 zero bytes. -/
def C6digestA : Bytes := List.replicate 32 0

/-- Second digest of the AliasID truncation pair: agrees with the first on
the leading four bytes and differs at byte index four. -/
def C6digestB : Bytes := [0, 0, 0, 0, 1] ++ List.replicate 27 0

/-- Concrete pre-exit state: a nonzero DeviceID private key, a nonzero
next-layer digest, a nonzero deferral time. -/
def C7state : CoreExitState := ⟨1 :: List.replicate 31 0, List.replicate 32 7, 360⟩

/-- Concrete current nonce for the deferral-ticket run. -/
def C8nonce : Bytes := List.replicate 16 1

/-- Concrete deferral-ticket payload carrying the value 42 little-endian. -/
def C8payload : Bytes := [42, 0, 0, 0]

/-- Concrete deferral-ticket header, valid for shaHead and ecvHdrTrue under
C8nonce. -/
def C8hdr : AuthHdr :=
  ⟨⟨LZ_MAGIC, HdrType.DEFERRAL_TICKET, 4, List.replicate 32 42, C8nonce, 0⟩, []⟩

/-- Concrete staging area holding exactly one valid deferral ticket. -/
def C8elems : List StagingElem := [⟨C8hdr, C8payload⟩]

/-- Adversarial staging view: every offset looks like a valid header whose
payload_size makes the 32-bit cursor step wrap to exactly zero. -/
def C10badView : StagingView :=
  ⟨fun _ => LZ_MAGIC, fun _ => UINT32_MOD - AUTH_HDR_SIZE⟩

/-- Benign staging view for the termination witness: valid magic
everywhere, zero payloads. -/
def C10okView : StagingView := ⟨fun _ => LZ_MAGIC, fun _ => 0⟩

/-- Claim C1: staging-header verification accepts exactly when the header
magic equals LZ_MAGIC, the payload size is positive, the SHA-256 of the
payload equals the digest field, the nonce equals the expected nonce, and
the ECDSA signature of the header content verifies under the management
public key; a record failing any single one of these conditions is
rejected. -/
theorem C1_verify_staging_hdr_iff (sha : Bytes → Bytes)
    (ecdsaVerify : Bytes → AuthHdrContent → Bytes → Bool)
    (management_pub_key : Bytes) (hdr : AuthHdr) (payload : Bytes)
    (nonce : Bytes) :
    lz_core_verify_staging_elem_hdr sha ecdsaVerify management_pub_key hdr
        payload nonce = LZ_SUCCESS ↔
      (hdr.content.magic = LZ_MAGIC ∧ 0 < hdr.content.payload_size ∧
       sha (payload.take hdr.content.payload_size) = hdr.content.digest ∧
       hdr.content.nonce = nonce ∧
       ecdsaVerify management_pub_key hdr.content hdr.signature = true) := by
  unfold lz_core_verify_staging_elem_hdr lz_core_verify_staging_elem_hdr_sig
  split_ifs <;> simp_all [Nat.pos_iff_ne_zero]

/-- Claim C2: if image verification accepts a header against stored
metadata, then the header version is at least the stored lastVersion and
the header issue time is at least the stored last_issue_time; a rollback
candidate is rejected with a verification error (the contrapositive). -/
theorem C2_rollback_monotonic (sha : Bytes → Bytes)
    (ecdsaVerifyImg : Bytes → ImgHdrContent → Bytes → Bool)
    (code_auth_pub_key : Bytes) (hdr_addr code_addr : Nat) (image_hdr : ImgHdr)
    (image_code : Bytes) (image_meta : ImgMeta) (image_digest_out : Option Bytes)
    (h : (lz_core_verify_image sha ecdsaVerifyImg code_auth_pub_key hdr_addr
        code_addr image_hdr image_code image_meta image_digest_out).1 = LZ_SUCCESS) :
    image_meta.lastVersion ≤ image_hdr.content.version ∧
    image_meta.last_issue_time ≤ image_hdr.content.issue_time := by
  unfold lz_core_verify_image at h
  split_ifs at h <;> simp_all

/-- Witness for claim C2: a concrete accepting verification whose header
dominates the stored metadata. -/
theorem C2_rollback_monotonic_witness :
    (lz_core_verify_image shaFive ecvImgTrue [] 0 100 C2hdr [1, 2, 3] C2meta
        none).1 = LZ_SUCCESS ∧
    (C2meta.lastVersion ≤ C2hdr.content.version ∧
     C2meta.last_issue_time ≤ C2hdr.content.issue_time) :=
  ⟨by decide,
   C2_rollback_monotonic shaFive ecvImgTrue [] 0 100 C2hdr [1, 2, 3] C2meta
     none (by decide)⟩

/-- An empty record-level staging view makes every staging-element lookup
report not-found. -/
theorem lz_has_valid_of_no_elems (sha : Bytes → Bytes)
    (ecdsaVerify : Bytes → AuthHdrContent → Bytes → Bool)
    (management_pub_key : Bytes) (elems : List StagingElem) (cur_nonce : Bytes)
    (t : HdrType) (h : lz_num_staging_elems_view elems = 0) :
    lz_has_valid_staging_element sha ecdsaVerify management_pub_key elems
      cur_nonce t = LZ_NOT_FOUND := by
  unfold lz_num_staging_elems_view at h
  rw [List.length_eq_zero] at h
  unfold lz_has_valid_staging_element lz_get_staging_hdr
  rw [h]
  rfl

/-- Claim C3: after update application the selector chooses the Core
Patcher when a verified core update is pending, otherwise the App when the
staging area holds a valid boot ticket, otherwise the Update Downloader;
and an empty staging area always selects the Update Downloader. -/
theorem C3_boot_mode_selection (sha : Bytes → Bytes)
    (ecdsaVerify : Bytes → AuthHdrContent → Bytes → Bool)
    (management_pub_key : Bytes) (elems : List StagingElem) (cur_nonce : Bytes) :
    (lz_core_select_boot_mode sha ecdsaVerify management_pub_key elems cur_nonce =
      (if lz_verified_core_update_pending sha ecdsaVerify management_pub_key
          elems cur_nonce = LZ_SUCCESS then BootMode.LZ_CPATCHER
       else if lz_has_valid_staging_element sha ecdsaVerify management_pub_key
          elems cur_nonce HdrType.BOOT_TICKET = LZ_SUCCESS then BootMode.APP
       else BootMode.LZ_UDOWNLOADER)) ∧
    (lz_num_staging_elems_view elems = 0 →
      lz_core_select_boot_mode sha ecdsaVerify management_pub_key elems
        cur_nonce = BootMode.LZ_UDOWNLOADER) := by
  constructor
  · unfold lz_core_select_boot_mode
    by_cases h : lz_num_staging_elems_view elems = 0
    · rw [if_pos h]
      have h1 := lz_has_valid_of_no_elems sha ecdsaVerify management_pub_key
        elems cur_nonce HdrType.LZ_CORE_UPDATE h
      have h2 := lz_has_valid_of_no_elems sha ecdsaVerify management_pub_key
        elems cur_nonce HdrType.BOOT_TICKET h
      unfold lz_verified_core_update_pending
      rw [h1, h2]
      simp
    · rw [if_neg h]
  · intro h
    unfold lz_core_select_boot_mode
    rw [if_pos h]

/-- Witness for claim C3: the empty staging area selects the Update
Downloader. -/
theorem C3_boot_mode_selection_witness :
    lz_num_staging_elems_view ([] : List StagingElem) = 0 ∧
    lz_core_select_boot_mode shaFive ecvHdrFalse [] [] [] =
      BootMode.LZ_UDOWNLOADER :=
  ⟨rfl, (C3_boot_mode_selection shaFive ecvHdrFalse [] [] []).2 rfl⟩

/-- Claim C4: when next-layer verification fails, the App falls through to
the Update Downloader with the firmware_update_necessary flag raised, while
a failed Core Patcher or Update Downloader bricks the device with no
handoff. -/
theorem C4_verify_override (sha : Bytes → Bytes)
    (ecdsaVerifyImg : Bytes → ImgHdrContent → Bytes → Bool)
    (code_auth_pub_key : Bytes) (env : NextLayerEnv) (mode : BootMode)
    (digest_out : Option Bytes)
    (h : (lz_core_verify_next_layer sha ecdsaVerifyImg code_auth_pub_key env
        mode digest_out).1 ≠ LZ_SUCCESS) :
    (mode = BootMode.APP →
      lz_core_after_verify mode (lz_core_verify_next_layer sha ecdsaVerifyImg
          code_auth_pub_key env mode digest_out).1 =
        RunOutcome.handoff BootMode.LZ_UDOWNLOADER true) ∧
    ((mode = BootMode.LZ_CPATCHER ∨ mode = BootMode.LZ_UDOWNLOADER) →
      lz_core_after_verify mode (lz_core_verify_next_layer sha ecdsaVerifyImg
          code_auth_pub_key env mode digest_out).1 = RunOutcome.brick) := by
  constructor
  · intro hm
    subst hm
    unfold lz_core_after_verify
    rw [if_pos h]
    simp
  · intro hm
    unfold lz_core_after_verify
    rw [if_pos h]
    rcases hm with hm | hm <;> subst hm <;> simp

/-- Witness for claim C4: a concrete App image with a bad header magic
fails verification and is overridden to the Update Downloader with the
update flag raised. -/
theorem C4_verify_override_witness :
    (lz_core_verify_next_layer shaFive ecvImgTrue [] C4env BootMode.APP
        none).1 ≠ LZ_SUCCESS ∧
    lz_core_after_verify BootMode.APP (lz_core_verify_next_layer shaFive
        ecvImgTrue [] C4env BootMode.APP none).1 =
      RunOutcome.handoff BootMode.LZ_UDOWNLOADER true :=
  ⟨by decide,
   (C4_verify_override shaFive ecvImgTrue [] C4env BootMode.APP none
     (by decide)).1 rfl⟩

/-- Claim C5: the App handoff block leaves cur_nonce, dev_auth,
dev_reassociation_necessary and firmware_update_necessary at their zero
initialisation while receiving next_nonce; the Update Downloader and Core
Patcher receive all four; next_nonce goes to the App and the Update
Downloader but stays zero for the Core Patcher. -/
theorem C5_need_to_know (hmac : Bytes → Bytes → Bytes)
    (pubPem privPem : ECCKeypair → Bytes) (bp : CoreBootParamsInfo)
    (nw_info_magic : Nat) (nw_info : Bytes) (lz_core_updated fw_update_nec : Bool)
    (alias_kp dev_kp : ECCKeypair) :
    ((lz_core_provide_params_ram hmac pubPem privPem bp nw_info_magic nw_info
        BootMode.APP lz_core_updated fw_update_nec alias_kp dev_kp).cur_nonce =
          ImgBootParamsInfo.zeroed.cur_nonce ∧
     (lz_core_provide_params_ram hmac pubPem privPem bp nw_info_magic nw_info
        BootMode.APP lz_core_updated fw_update_nec alias_kp dev_kp).dev_auth =
          ImgBootParamsInfo.zeroed.dev_auth ∧
     (lz_core_provide_params_ram hmac pubPem privPem bp nw_info_magic nw_info
        BootMode.APP lz_core_updated fw_update_nec alias_kp
        dev_kp).dev_reassociation_necessary = false ∧
     (lz_core_provide_params_ram hmac pubPem privPem bp nw_info_magic nw_info
        BootMode.APP lz_core_updated fw_update_nec alias_kp
        dev_kp).firmware_update_necessary = false ∧
     (lz_core_provide_params_ram hmac pubPem privPem bp nw_info_magic nw_info
        BootMode.APP lz_core_updated fw_update_nec alias_kp dev_kp).next_nonce =
          bp.next_nonce) ∧
    ((lz_core_provide_params_ram hmac pubPem privPem bp nw_info_magic nw_info
        BootMode.LZ_UDOWNLOADER lz_core_updated fw_update_nec alias_kp
        dev_kp).cur_nonce = bp.cur_nonce ∧
     (lz_core_provide_params_ram hmac pubPem privPem bp nw_info_magic nw_info
        BootMode.LZ_UDOWNLOADER lz_core_updated fw_update_nec alias_kp
        dev_kp).dev_auth = lz_core_derive_dev_auth hmac pubPem bp dev_kp ∧
     (lz_core_provide_params_ram hmac pubPem privPem bp nw_info_magic nw_info
        BootMode.LZ_UDOWNLOADER lz_core_updated fw_update_nec alias_kp
        dev_kp).dev_reassociation_necessary = lz_core_updated ∧
     (lz_core_provide_params_ram hmac pubPem privPem bp nw_info_magic nw_info
        BootMode.LZ_UDOWNLOADER lz_core_updated fw_update_nec alias_kp
        dev_kp).firmware_update_necessary = fw_update_nec ∧
     (lz_core_provide_params_ram hmac pubPem privPem bp nw_info_magic nw_info
        BootMode.LZ_UDOWNLOADER lz_core_updated fw_update_nec alias_kp
        dev_kp).next_nonce = bp.next_nonce) ∧
    ((lz_core_provide_params_ram hmac pubPem privPem bp nw_info_magic nw_info
        BootMode.LZ_CPATCHER lz_core_updated fw_update_nec alias_kp
        dev_kp).cur_nonce = bp.cur_nonce ∧
     (lz_core_provide_params_ram hmac pubPem privPem bp nw_info_magic nw_info
        BootMode.LZ_CPATCHER lz_core_updated fw_update_nec alias_kp
        dev_kp).dev_auth = lz_core_derive_dev_auth hmac pubPem bp dev_kp ∧
     (lz_core_provide_params_ram hmac pubPem privPem bp nw_info_magic nw_info
        BootMode.LZ_CPATCHER lz_core_updated fw_update_nec alias_kp
        dev_kp).dev_reassociation_necessary = lz_core_updated ∧
     (lz_core_provide_params_ram hmac pubPem privPem bp nw_info_magic nw_info
        BootMode.LZ_CPATCHER lz_core_updated fw_update_nec alias_kp
        dev_kp).firmware_update_necessary = fw_update_nec ∧
     (lz_core_provide_params_ram hmac pubPem privPem bp nw_info_magic nw_info
        BootMode.LZ_CPATCHER lz_core_updated fw_update_nec alias_kp
        dev_kp).next_nonce = ImgBootParamsInfo.zeroed.next_nonce) := by
  refine ⟨⟨?_, ?_, ?_, ?_, ?_⟩, ⟨?_, ?_, ?_, ?_, ?_⟩, ⟨?_, ?_, ?_, ?_, ?_⟩⟩ <;>
    simp only [lz_core_provide_params_ram] <;> split_ifs <;>
    simp_all [ImgBootParamsInfo.zeroed]

/-- Claim C6 (code bug): the source passes sizeof of a pointer as the seed
length, so the AliasID keypair is derived from only the first four bytes of
the SHA-256 value; two distinct 32-byte digests agreeing on those four
bytes yield the same keypair even under a seed-injective derivation,
contradicting the claimed distinctness in the next-layer digest. -/
theorem C6_alias_seed_truncated :
    C6digestA ≠ C6digestB ∧
    C6digestA.take SIZEOF_UINT8_PTR = C6digestB.take SIZEOF_UINT8_PTR ∧
    lz_core_derive_alias_id_keypair deriveEccSeed C6digestA =
      lz_core_derive_alias_id_keypair deriveEccSeed C6digestB :=
  ⟨by decide, by decide, rfl⟩

/-- Claim C7 (code bug): on the successful handoff exit path the next-layer
digest and the deferral time are cleared, but the DeviceID private key is
left untouched (the source marks the omission with a TODO), so not all
ephemeral material is zeroed. -/
theorem C7_exit_zeroization_gap :
    (lz_core_exit_path C7state).next_layer_digest = List.replicate 32 0 ∧
    (lz_core_exit_path C7state).deferral_time = 0 ∧
    (lz_core_exit_path C7state).dev_id_keypair_priv =
      C7state.dev_id_keypair_priv ∧
    (lz_core_exit_path C7state).dev_id_keypair_priv ≠ List.replicate 32 0 :=
  ⟨rfl, rfl, rfl, by decide⟩

/-- Claim C8 (code bug): with a valid deferral ticket carrying the value 42
in staging, lz_get_deferral_time reports success yet leaves the caller
variable at its prior value (here 7): the ticket value is never written
through the out parameter, and the caller then arms the watchdog with that
unwritten value instead of either 42 or the default. -/
theorem C8_deferral_time_not_written :
    uint32_le C8payload = 42 ∧
    lz_get_deferral_time shaHead ecvHdrTrue [] C8elems C8nonce 7 =
      (LZ_SUCCESS, 7) ∧
    lz_core_determine_deferral_time shaHead ecvHdrTrue [] C8elems C8nonce
      1000 7 = 7 :=
  ⟨rfl, by decide, by decide⟩

/-- Claim C9: the digest-out buffer of image verification is rewritten
exactly on a fully successful verification with a non-null buffer, in which
case it holds the SHA-256 of the first header.size bytes of the image code;
every failing verification leaves it unchanged. -/
theorem C9_digest_out_only_on_success (sha : Bytes → Bytes)
    (ecdsaVerifyImg : Bytes → ImgHdrContent → Bytes → Bool)
    (code_auth_pub_key : Bytes) (hdr_addr code_addr : Nat) (image_hdr : ImgHdr)
    (image_code : Bytes) (image_meta : ImgMeta)
    (image_digest_out : Option Bytes) :
    (lz_core_verify_image sha ecdsaVerifyImg code_auth_pub_key hdr_addr
        code_addr image_hdr image_code image_meta image_digest_out).2 =
      if (lz_core_verify_image sha ecdsaVerifyImg code_auth_pub_key hdr_addr
          code_addr image_hdr image_code image_meta image_digest_out).1 =
            LZ_SUCCESS ∧ image_digest_out ≠ none
      then some (sha (image_code.take image_hdr.content.size))
      else image_digest_out := by
  rcases image_digest_out with _ | b <;>
    simp only [lz_core_verify_image] <;> split_ifs <;> simp_all

/-- The adversarial staging view pins the 32-bit cursor at offset zero, so
the element walk never leaves the loop, whatever the fuel. -/
theorem C10_badview_stuck (fuel num : Nat) :
    lz_get_num_staging_elems C10badView 0x8000 AUTH_HDR_SIZE fuel 0 num =
      none := by
  induction fuel generalizing num with
  | zero =>
      unfold lz_get_num_staging_elems
      norm_num [C10badView]
  | succ f ih =>
      unfold lz_get_num_staging_elems
      norm_num [C10badView, AUTH_HDR_SIZE, UINT32_MOD]
      exact ih _

/-- Counterexample to claim C10 as stated: a staging content whose headers
all carry a valid magic and a payload_size of 2^32 minus the header size
makes every 32-bit cursor step wrap to zero, so lz_get_num_staging_elems
never terminates: no fuel suffices. -/
theorem C10_nontermination :
    ¬ ∃ fuel num, lz_get_num_staging_elems C10badView 0x8000 AUTH_HDR_SIZE
        fuel 0 0 = some num := by
  rintro ⟨fuel, num, h⟩
  rw [C10_badview_stuck] at h
  exact Option.noConfusion h

/-- The 32-bit cursor walk agrees with the exact-arithmetic leading-header
count, modulo the uint8_t counter width, whenever no cursor step wraps
around 2^32. -/
theorem C10_walk_eq_count (view : StagingView) (S H : Nat) (hH : 0 < H)
    (hnw : ∀ c, c < S → c + H + view.payload_size c < UINT32_MOD) :
    ∀ fuel cursor num, num < 256 → S ≤ cursor + fuel →
      lz_get_num_staging_elems view S H fuel cursor num =
        some ((num + lz_count_leading_hdrs view S H fuel cursor) % 256) := by
  intro fuel
  induction fuel with
  | zero =>
      intro cursor num hn hS
      unfold lz_get_num_staging_elems lz_count_leading_hdrs
      have hc : ¬ cursor < S := by omega
      rw [if_neg hc]
      have : (num + 0) % 256 = num := by omega
      rw [this]
  | succ f ih =>
      intro cursor num hn hS
      unfold lz_get_num_staging_elems lz_count_leading_hdrs
      by_cases hc : cursor < S
      · rw [if_pos hc, if_pos hc]
        by_cases hm : view.magic cursor = LZ_MAGIC
        · rw [if_pos hm, if_pos hm]
          have hw := hnw cursor hc
          have hmod : (cursor + H + view.payload_size cursor) % UINT32_MOD =
              cursor + H + view.payload_size cursor := Nat.mod_eq_of_lt hw
          rw [hmod]
          have h3 : (num + 1) % 256 < 256 := Nat.mod_lt _ (by norm_num)
          have h2 : S ≤ cursor + H + view.payload_size cursor + f := by omega
          rw [ih (cursor + H + view.payload_size cursor) ((num + 1) % 256) h3 h2]
          congr 1
          rw [Nat.mod_add_mod]
          congr 1
          omega
        · rw [if_neg hm, if_neg hm]
          have : (num + 0) % 256 = num := by omega
          rw [this]
      · rw [if_neg hc, if_neg hc]
        have : (num + 0) % 256 = num := by omega
        rw [this]

/-- Claim C10 (amended): for every staging content in which no cursor step
wraps the 32-bit arithmetic, lz_get_num_staging_elems terminates within
staging-area-size plus one iterations and returns the count of the leading
valid-looking headers reduced by the uint8_t counter width, stepping by
header size plus payload_size until the region end or a header with a
different magic. -/
theorem C10_count_terminates_no_wrap (view : StagingView) (S H : Nat)
    (hH : 0 < H)
    (hnw : ∀ c, c < S → c + H + view.payload_size c < UINT32_MOD) :
    lz_get_num_staging_elems view S H (S + 1) 0 0 =
      some (lz_count_leading_hdrs view S H (S + 1) 0 % 256) := by
  have h := C10_walk_eq_count view S H hH hnw (S + 1) 0 0 (by norm_num)
    (by omega)
  simpa using h

/-- Witness for the amended claim C10: a two-byte region of valid headers
with zero payloads is counted completely. -/
theorem C10_count_terminates_no_wrap_witness :
    (0 < 1) ∧ (∀ c, c < 2 → c + 1 + C10okView.payload_size c < UINT32_MOD) ∧
    lz_get_num_staging_elems C10okView 2 1 3 0 0 =
      some (lz_count_leading_hdrs C10okView 2 1 3 0 % 256) :=
  ⟨by decide, by decide,
   C10_count_terminates_no_wrap C10okView 2 1 (by decide) (by decide)⟩

end Lazarus
